import Mathlib

/-!
Verification of the authenticated-express-app boilerplate.

Shallow embedding of the repository's authentication flow, access gate,
user model and users controller, with theorems checking the spec's claims.

Conventions of the embedding:
* A mongoose document / persisted user is a `User`; the version key `__v`
  and the object id `_id` keep their source names.
* Request bodies are ordered key/value lists (`List (String × String)`),
  mirroring JSON object key order, which mongoose assignment follows.
* Each `res.status(..).json(..)` / `res.send(..)` chain is one attempted
  `Response`; `login` returns the list of attempted responses because its
  error branch lacks a `return` and falls through to a second send.
* bcrypt and jsonwebtoken are external libraries; they are modelled
  structurally: a hash is `salt ++ "$" ++ password` (compare recomputes
  from the stored hash, as `bcrypt.compareSync` does), and a signed token
  is a record of payload, expiry instant and the signing secret.
-/

namespace AuthApp

/-- The process-wide signing secret of `config/tokens.js`
(`"Shh it\x27s a secret"`). -/
def secret : String := "Shh it\x27s a secret"

/-- Model of `bcrypt.hashSync(password, salt)`: the stored digest encodes
the salt and the password. -/
def bcryptHashSync (password salt : String) : String :=
  salt ++ "$" ++ password

/-- Model of `bcrypt.compareSync(password, hash)`: true exactly when the
hash could have been produced by hashing `password` with some salt, i.e.
the hash ends with the separator followed by the password. -/
def bcryptCompareSync (password hash : String) : Bool :=
  ("$" ++ password).toList.isSuffixOf hash.toList

/-- Token payload built at `controllers/authentications.js:9` and `:26`:
`{ _id: user._id, username: user.username }`. -/
structure Payload where
  _id : Nat
  username : String
deriving DecidableEq, Repr

/-- Model of a `jsonwebtoken` token: payload, expiry instant (`exp`) and
the secret the signature was computed with. -/
structure Token where
  payload : Payload
  exp : Nat
  sig : String
deriving DecidableEq, Repr

/-- Model of `jwt.sign(payload, secret, { expiresIn })` at wall-clock
time `now`: the expiry is `now + expiresIn`. -/
def jwtSign (payload : Payload) (s : String) (expiresIn : Nat) (now : Nat) : Token :=
  { payload := payload, exp := now + expiresIn, sig := s }

/-- Model of `jwt.verify(token, secret)` at wall-clock time `now`:
succeeds iff the signature matches the secret and the token is not yet
expired (`jsonwebtoken` rejects once `now ≥ exp`). -/
def jwtVerify (t : Token) (s : String) (now : Nat) : Option Payload :=
  if t.sig = s ∧ now < t.exp then some t.payload else none

/-- A persisted user document (`models/user.js` schema plus the mongoose
object id `_id` and version key `__v`). -/
structure User where
  _id : Nat
  username : String
  email : String
  passwordHash : String
  __v : Nat
deriving DecidableEq, Repr

/-- The schema method `validatePassword`:
`bcrypt.compareSync(password, this.passwordHash)`. -/
def validatePassword (password : String) (u : User) : Bool :=
  bcryptCompareSync password u.passwordHash

/-- An in-memory mongoose document while it is being built from a request
body: the schema paths, plus the transient virtual backing fields
`this._password` and `this._passwordConfirmation` (never persisted). -/
structure Doc where
  username : Option String := none
  email : Option String := none
  passwordHash : Option String := none
  _password : Option String := none
  _passwordConfirmation : Option String := none
deriving DecidableEq, Repr

/-- One step of mongoose document assignment (`new Model(body)` walks the
body's keys in order): schema paths are set directly; the `password`
virtual setter (`models/user.js`) stores the raw value in `_password` and
overwrites `passwordHash` with `bcrypt.hashSync`; the
`passwordConfirmation` virtual setter stores its value; unknown keys are
dropped (mongoose strict mode). -/
def assignField (salt : String) (doc : Doc) (kv : String × String) : Doc :=
  match kv.1 with
  | "username" => { doc with username := some kv.2 }
  | "email" => { doc with email := some kv.2 }
  | "passwordHash" => { doc with passwordHash := some kv.2 }
  | "password" =>
      { doc with _password := some kv.2,
                 passwordHash := some (bcryptHashSync kv.2 salt) }
  | "passwordConfirmation" => { doc with _passwordConfirmation := some kv.2 }
  | _ => doc

/-- Validation issues a new document can accumulate: the three
`required: true` declarations of the schema, the two `invalidate` calls of
the custom `passwordHash` path validator, and the MongoDB duplicate-key
error raised by the two `unique: true` indexes at save time. -/
inductive ValIssue where
  | requiredUsername
  | requiredEmail
  | requiredPasswordHash
  | passwordRequired
  | passwordsDoNotMatch
  | duplicateKey
deriving DecidableEq, Repr

/-- Model of the mongoose `required: true` check on a String path
(`SchemaString.checkRequired`): the value must be a present string of
positive length, so an absent value and the empty string both fail. -/
def checkRequired : Option String → Bool
  | none => false
  | some s => s != ""

/-- Document validation for a new (`isNew`) document: the `required`
checks on the three String schema paths (failing on an absent or empty
value), and — when `passwordHash` holds a value, since mongoose skips
custom path validators on an absent value — the custom validator of
`models/user.js:33-44`: `!this._password` (false for an absent or empty
raw password, by JS truthiness) invalidates with "A password is
required", and `this._password !== this._passwordConfirmation`
invalidates with "Passwords do not match". -/
def validateNew (doc : Doc) : List ValIssue :=
  (if checkRequired doc.username then [] else [ValIssue.requiredUsername])
  ++ (if checkRequired doc.email then [] else [ValIssue.requiredEmail])
  ++ (if checkRequired doc.passwordHash then []
      else [ValIssue.requiredPasswordHash])
  ++ (match doc.passwordHash with
      | none => []
      | some _ =>
        match doc._password with
        | none => [ValIssue.passwordRequired]
        | some p =>
          if p = "" then [ValIssue.passwordRequired]
          else if doc._passwordConfirmation ≠ some p then
            [ValIssue.passwordsDoNotMatch]
          else [])

/-- Model of `User.create(body)`: build the document from the body keys in
order, run validation, then save — which fails with a duplicate-key error
when another persisted user already has the same username or email
(`unique: true`), and otherwise persists the document under a fresh id. -/
def createUser (store : List User) (body : List (String × String))
    (salt : String) (freshId : Nat) : Except (List ValIssue) User :=
  let doc := body.foldl (assignField salt) {}
  match validateNew doc with
  | [] =>
    if store.any (fun u => u.username == doc.username.getD ""
        || u.email == doc.email.getD "") then
      Except.error [ValIssue.duplicateKey]
    else
      Except.ok { _id := freshId, username := doc.username.getD "",
                  email := doc.email.getD "",
                  passwordHash := doc.passwordHash.getD "", __v := 0 }
  | issues => Except.error issues

/-- Response bodies the controllers build. -/
inductive Body where
  /-- Sent by `res.json({ message: .. })` -/
  | msg : String → Body
  /-- Sent by `res.json({ message: .., token: .. })` -/
  | msgToken : String → Token → Body
  /-- Sent by `res.json(err)` for a store/infrastructure error -/
  | errBody : String → Body
  /-- Sent by `res.json(err)` for a mongoose validation error -/
  | valErr : List ValIssue → Body
  /-- Sent by `res.json(user)` with a serialized user -/
  | jsonUser : List (String × String) → Body
  /-- Sent by `res.json(users)` with a serialized user array -/
  | jsonUsers : List (List (String × String)) → Body
  /-- Sent by `res.json(user)` when `user` is `null` -/
  | jsonNull : Body
  /-- Sent by `res.send()` with no body -/
  | empty : Body
deriving DecidableEq, Repr

/-- One attempted HTTP response: a status code and a body. -/
structure Response where
  status : Nat
  body : Body
deriving DecidableEq, Repr

/-- The store's answer to `User.findOne({ email })` as seen by the login
callback `(err, user)`: an infrastructure error, a matching user, or no
match. -/
inductive LookupResult where
  | err : String → LookupResult
  | found : User → LookupResult
  | notFound : LookupResult
deriving DecidableEq, Repr

/-- Controller function `register` of `controllers/authentications.js`: `User.create(req.body)`;
on error respond 400 with the error, otherwise sign
`{ _id, username }` with the secret and `expiresIn: 60*60*24` and respond
200 `{ message: "Success", token }`. Returns the response and the store
after the call. -/
def register (store : List User) (body : List (String × String))
    (salt : String) (freshId : Nat) (now : Nat) : Response × List User :=
  match createUser store body salt freshId with
  | Except.error e => (⟨400, Body.valErr e⟩, store)
  | Except.ok user =>
      let payload : Payload := { _id := user._id, username := user.username }
      let token := jwtSign payload secret (60 * 60 * 24) now
      (⟨200, Body.msgToken "Success" token⟩, store ++ [user])

/-- Controller function `login` of `controllers/authentications.js`, as the list of responses
the callback attempts to send, in order. On a lookup error the code runs
`res.send(500).json(err)` WITHOUT `return` (in Express 4 the deprecated
`res.send(500)` sends a 500-status response, and the chained `.json(err)`
is a second write attempt on the same response), and then — `user` being
null alongside an error — falls through into the `!user` branch, which
sends the 401 `Invalid credentials` response as well. -/
def login (lookup : LookupResult) (password : String) (now : Nat) :
    List Response :=
  match lookup with
  | LookupResult.err e =>
      [⟨500, Body.errBody e⟩, ⟨401, Body.msg "Invalid credentials"⟩]
  | LookupResult.notFound => [⟨401, Body.msg "Invalid credentials"⟩]
  | LookupResult.found user =>
      if validatePassword password user then
        let payload : Payload := { _id := user._id, username := user.username }
        let token := jwtSign payload secret (60 * 60 * 24) now
        [⟨200, Body.msgToken "Success" token⟩]
      else [⟨401, Body.msg "Invalid credentials"⟩]

/-! ## Serialization (`userSchema.set('toJSON', ...)`)-/

/-- The document's raw JSON object before the transform: every persisted
path, including `passwordHash` and the version key `__v`. -/
def rawJSON (u : User) : List (String × String) :=
  [("_id", toString u._id), ("username", u.username), ("email", u.email),
   ("passwordHash", u.passwordHash), ("__v", toString u.__v)]

/-- Model of `delete json.key`: remove the key from the JSON object. -/
def deleteKey (k : String) (json : List (String × String)) :
    List (String × String) :=
  json.filter (fun kv => kv.1 ≠ k)

/-- Serialization: the `toJSON` transform of `models/user.js:10-16`:
`delete json.passwordHash; delete json.__v; return json`, applied to the
raw JSON of the document. This is what `res.json(user)` serializes. -/
def userToJSON (u : User) : List (String × String) :=
  deleteKey "__v" (deleteKey "passwordHash" (rawJSON u))

/-! ## Users controller (`controllers/users.js`) -/

/-- Handler `usersIndex`: `User.find` then 500 on error, else 200 with the
serialized array. The argument is the store's answer. -/
def usersIndex (result : Except String (List User)) : Response :=
  match result with
  | Except.error e => ⟨500, Body.errBody e⟩
  | Except.ok users => ⟨200, Body.jsonUsers (users.map userToJSON)⟩

/-- Handler `usersCreate`: `User.create(req.body)`; 400 with the error on
failure, else 201 with the serialized new user. Returns the response and
the store after the call. -/
def usersCreate (store : List User) (body : List (String × String))
    (salt : String) (freshId : Nat) : Response × List User :=
  match createUser store body salt freshId with
  | Except.error e => (⟨400, Body.valErr e⟩, store)
  | Except.ok user => (⟨201, Body.jsonUser (userToJSON user)⟩, store ++ [user])

/-- Handler `usersShow`: `User.findById`; 500 on store error, 404
`Could not find a user with that id` when no user matches, else 200 with
the serialized user. The argument is the store's answer `(err, user)`. -/
def usersShow (result : Except String (Option User)) : Response :=
  match result with
  | Except.error e => ⟨500, Body.errBody e⟩
  | Except.ok none => ⟨404, Body.msg "Could not find a user with that id"⟩
  | Except.ok (some user) => ⟨200, Body.jsonUser (userToJSON user)⟩

/-- One `$set` step of `findByIdAndUpdate`: update queries write schema
paths directly and never run document middleware, so `password` and
`passwordConfirmation` are not schema paths here and are dropped
(mongoose strict mode), while `passwordHash` is written as supplied. -/
def applyUpdateField (u : User) (kv : String × String) : User :=
  match kv.1 with
  | "username" => { u with username := kv.2 }
  | "email" => { u with email := kv.2 }
  | "passwordHash" => { u with passwordHash := kv.2 }
  | _ => u

/-- Model of `User.findByIdAndUpdate(id, body, { new: true })`: apply the
body's `$set` fields to the matching user, returning the updated document
(`new: true`) and the updated store; `(none, store)` when no user has the
id. -/
def findByIdAndUpdate (store : List User) (id : Nat)
    (body : List (String × String)) : Option User × List User :=
  match store.find? (fun u => u._id == id) with
  | none => (none, store)
  | some u =>
      let u2 := body.foldl applyUpdateField u
      (some u2, store.map (fun v => if v._id == id then u2 else v))

/-- Handler `usersUpdate`: `User.findByIdAndUpdate(req.params.id, req.body,
{ new: true, runValidators: true })`; 400 with the error on failure, else
200 with the (possibly null) serialized result. `storeErr` is a possible
infrastructure/validation error reported by the store. -/
def usersUpdate (storeErr : Option String) (store : List User) (id : Nat)
    (body : List (String × String)) : Response × List User :=
  match storeErr with
  | some e => (⟨400, Body.errBody e⟩, store)
  | none =>
      match findByIdAndUpdate store id body with
      | (none, store2) => (⟨200, Body.jsonNull⟩, store2)
      | (some user, store2) => (⟨200, Body.jsonUser (userToJSON user)⟩, store2)

/-- Handler `usersDelete`: `User.findByIdAndRemove(req.params.id)`; the callback
receives only `err`, so 500 on a store error and otherwise 204 with an
empty body — whether or not any user had the id. -/
def usersDelete (storeErr : Option String) (store : List User) (id : Nat) :
    Response × List User :=
  match storeErr with
  | some e => (⟨500, Body.errBody e⟩, store)
  | none => (⟨204, Body.empty⟩, store.filter (fun u => u._id ≠ id))

/-! ## Access gate (`secureRoute` in `config/routes.js`) -/

/-- Remove the first occurrence of `pat` from a character list, leaving
the list unchanged when `pat` does not occur. -/
def removeFirstOcc (pat : List Char) : List Char → List Char
  | [] => []
  | c :: rest =>
      if pat.isPrefixOf (c :: rest) then (c :: rest).drop pat.length
      else c :: removeFirstOcc pat rest

/-- Whether `pat` occurs as a contiguous run inside the list. -/
def hasOcc (pat : List Char) : List Char → Bool
  | [] => pat.isEmpty
  | c :: rest => pat.isPrefixOf (c :: rest) || hasOcc pat rest

/-- Model of `req.headers.authorization.replace('Bearer ', '')`: a JS
`String.replace` with a string pattern replaces only the FIRST occurrence
of the pattern. -/
def extractToken (header : String) : String :=
  ⟨removeFirstOcc "Bearer ".toList header.toList⟩

/-- What the gate decides for a request: reject with a response, or let
it proceed with the decoded payload attached as `req.user`. -/
inductive GateOutcome where
  | reject : Response → GateOutcome
  | proceed : Payload → GateOutcome
deriving DecidableEq, Repr

/-- Middleware `secureRoute(req, res, next)`: reject 401 `Unauthorized` when the
`Authorization` header is absent (or the empty string — JS
`!req.headers.authorization` is also true for `""`); otherwise strip the
first `'Bearer '` occurrence and hand the result to `jwt.verify`, reject
401 `Unauthorized` when verification fails, and otherwise set `req.user`
to the payload and call `next()`. The verification function is the
external `jwt.verify(·, secret)` at the current time, abstracted as
`verify`. -/
def secureRoute (verify : String → Option Payload)
    (authHeader : Option String) : GateOutcome :=
  match authHeader with
  | none => GateOutcome.reject ⟨401, Body.msg "Unauthorized"⟩
  | some h =>
      if h = "" then GateOutcome.reject ⟨401, Body.msg "Unauthorized"⟩
      else
        match verify (extractToken h) with
        | none => GateOutcome.reject ⟨401, Body.msg "Unauthorized"⟩
        | some payload => GateOutcome.proceed payload

/-- A protected route: `.all(secureRoute)` followed by a resource
handler. The handler runs only when the gate proceeds, and receives the
payload the gate attached as `req.user`. -/
def handleProtected (verify : String → Option Payload)
    (authHeader : Option String) (handler : Payload → Response) : Response :=
  match secureRoute verify authHeader with
  | GateOutcome.reject r => r
  | GateOutcome.proceed p => handler p

/-- A serialized JSON object exposes neither the password digest key nor
the version-metadata key. -/
def keysOk (json : List (String × String)) : Bool :=
  json.all (fun kv => kv.1 ≠ "passwordHash" && kv.1 ≠ "__v")

/-- A response body exposes neither the password digest key nor the
version-metadata key in any serialized user it carries. -/
def bodyOk : Body → Bool
  | Body.jsonUser j => keysOk j
  | Body.jsonUsers js => js.all keysOk
  | _ => true

/-! Helper lemmas shared by the claim theorems. -/

/-- The serialized form of any user consists of exactly the id, username
and email keys. -/
lemma userToJSON_eq (u : User) :
    userToJSON u = [("_id", toString u._id), ("username", u.username),
      ("email", u.email)] := by
  simp [userToJSON, rawJSON, deleteKey]

/-- Removing a pattern from a list it starts with leaves the tail. -/
lemma removeFirstOcc_append (pat s : List Char) :
    removeFirstOcc pat (pat ++ s) = s := by
  cases hp : pat ++ s with
  | nil =>
      rcases List.append_eq_nil.mp hp with ⟨h1, h2⟩
      simp [removeFirstOcc, h1, h2]
  | cons c rest =>
      rw [removeFirstOcc]
      have hpre : pat.isPrefixOf (c :: rest) = true := by
        rw [← hp, List.isPrefixOf_iff_prefix]
        exact List.prefix_append pat s
      rw [if_pos hpre, ← hp, List.drop_left]

/-- When the pattern occurs nowhere, removal is the identity. -/
lemma removeFirstOcc_of_not_hasOcc (pat : List Char) (l : List Char)
    (h : hasOcc pat l = false) : removeFirstOcc pat l = l := by
  induction l with
  | nil => rfl
  | cons c rest ih =>
      rw [hasOcc, Bool.or_eq_false_iff] at h
      rw [removeFirstOcc, if_neg (by simp [h.1]), ih h.2]

/-- Gate failure: a present, nonempty-or-empty header whose extracted
token does not verify is rejected with 401 Unauthorized. -/
lemma handleProtected_of_verify_none (verify : String → Option Payload)
    (handler : Payload → Response) (h : String)
    (hv : verify (extractToken h) = none) :
    handleProtected verify (some h) handler = ⟨401, Body.msg "Unauthorized"⟩ := by
  by_cases hh : h = ""
  · subst hh; rfl
  · simp [handleProtected, secureRoute, hh, hv]

/-- Gate success: a present nonempty header whose extracted token
verifies lets the handler run on the decoded payload. -/
lemma handleProtected_of_verify_some (verify : String → Option Payload)
    (handler : Payload → Response) (h : String) (p : Payload)
    (hh : h ≠ "") (hv : verify (extractToken h) = some p) :
    handleProtected verify (some h) handler = handler p := by
  simp [handleProtected, secureRoute, hh, hv]

/-- Verification of a freshly signed token before its expiry returns the
payload. -/
lemma jwtVerify_jwtSign_of_lt (p : Payload) (e T t : Nat) (h : t < T + e) :
    jwtVerify (jwtSign p secret e T) secret t = some p := by
  simp [jwtVerify, jwtSign, h]

/-- Verification of a freshly signed token at or after its expiry
fails. -/
lemma jwtVerify_jwtSign_of_ge (p : Payload) (e T t : Nat) (h : ¬ t < T + e) :
    jwtVerify (jwtSign p secret e T) secret t = none := by
  simp [jwtVerify, jwtSign, h]

/-- Validation of a new document cannot succeed when the raw password is
absent, empty, or different from the confirmation value (stated over the
five fields of the document; structure eta applies it to any `Doc`). -/
lemma validateNew_ne_nil_of_bad_password (du de dph dpw dpc : Option String)
    (h : dpw = none ∨ dpw = some "" ∨ dpw ≠ dpc) :
    validateNew ⟨du, de, dph, dpw, dpc⟩ ≠ [] := by
  intro hnil
  unfold validateNew at hnil
  rcases List.append_eq_nil.mp hnil with ⟨h123, h4⟩
  rcases List.append_eq_nil.mp h123 with ⟨-, h3⟩
  cases dph with
  | none => simp [checkRequired] at h3
  | some hv =>
      cases dpw with
      | none => simp at h4
      | some p =>
          by_cases hpe : p = ""
          · simp [hpe] at h4
          · by_cases hpc : dpc ≠ some p
            · simp [hpe, hpc] at h4
            · push_neg at hpc
              rcases h with h | h | h
              · simp at h
              · exact hpe (by simpa using h)
              · rw [hpc] at h
                exact h rfl

/-- Creation with a document that fails validation reports exactly the
validation issues. -/
lemma createUser_eq_error (store : List User) (body : List (String × String))
    (salt : String) (freshId : Nat)
    (hne : validateNew (body.foldl (assignField salt) {}) ≠ []) :
    createUser store body salt freshId
      = Except.error (validateNew (body.foldl (assignField salt) {})) := by
  simp only [createUser]

/-- Successful validation of a new document pins down a nonempty raw
password matched by the confirmation value (stated over the five fields
of the document; structure eta applies it to any `Doc`). -/
lemma validateNew_nil_password (du de dph dpw dpc : Option String)
    (h : validateNew ⟨du, de, dph, dpw, dpc⟩ = []) :
    ∃ pw : String, pw ≠ "" ∧ dpw = some pw ∧ dpc = some pw := by
  unfold validateNew at h
  rcases List.append_eq_nil.mp h with ⟨h123, h4⟩
  rcases List.append_eq_nil.mp h123 with ⟨-, h3⟩
  cases dph with
  | none => simp [checkRequired] at h3
  | some hv =>
      cases dpw with
      | none => simp at h4
      | some p =>
          by_cases hpe : p = ""
          · simp [hpe] at h4
          · by_cases hpc : dpc ≠ some p
            · simp [hpe, hpc] at h4
            · push_neg at hpc
              exact ⟨p, hpe, rfl, hpc⟩

/-- The stored digest is never the empty string: it always contains the
separator, so it passes the required-length check. -/
lemma bcryptHashSync_ne_empty (password salt : String) :
    bcryptHashSync password salt ≠ "" := by
  intro h
  have hl := congrArg String.length h
  simp only [bcryptHashSync, String.length_append] at hl
  have h1 : "$".length = 1 := rfl
  have h0 : "".length = 0 := rfl
  omega

/-- Creation from the canonical candidate body (username, email,
password, matching confirmation) succeeds when the handle, address and
raw password are nonempty and neither the handle nor the address is
already taken. -/
lemma createUser_candidate (store : List User) (un em pw salt : String)
    (freshId : Nat) (hun0 : un ≠ "") (hem0 : em ≠ "") (hpw : pw ≠ "")
    (hdup : store.any (fun u => u.username == un || u.email == em) = false) :
    createUser store [("username", un), ("email", em), ("password", pw),
        ("passwordConfirmation", pw)] salt freshId
      = Except.ok ⟨freshId, un, em, bcryptHashSync pw salt, 0⟩ := by
  simp only [createUser]
  have hdoc : ([("username", un), ("email", em), ("password", pw),
      ("passwordConfirmation", pw)] : List (String × String)).foldl
        (assignField salt) {}
      = { username := some un, email := some em,
          passwordHash := some (bcryptHashSync pw salt),
          _password := some pw, _passwordConfirmation := some pw } := rfl
  rw [hdoc]
  simp [validateNew, checkRequired, hun0, hem0, hpw,
    bcryptHashSync_ne_empty pw salt, hdup]

/-- A successful creation validated its document, and the persisted
digest is the document's `passwordHash` path. -/
lemma createUser_ok_passwordHash (store : List User)
    (body : List (String × String)) (salt : String) (freshId : Nat) (u : User)
    (hok : createUser store body salt freshId = Except.ok u) :
    validateNew (body.foldl (assignField salt) {}) = [] ∧
      u.passwordHash = (body.foldl (assignField salt) {}).passwordHash.getD "" := by
  simp only [createUser] at hok
  rcases hv : validateNew (body.foldl (assignField salt) {}) with - | ⟨i, is⟩
  · rw [hv] at hok
    rcases hdup : store.any (fun v => v.username
        == ((body.foldl (assignField salt) {}).username.getD "")
        || v.email == ((body.foldl (assignField salt) {}).email.getD "")) with - | -
    · rw [if_neg (by simp [hdup])] at hok
      cases hok
      exact ⟨rfl, rfl⟩
    · rw [if_pos (by simp [hdup])] at hok
      cases hok
  · rw [hv] at hok
    cases hok

/-- Over a body that never writes the `passwordHash` key directly, the
document's digest path always stays the hash of its transient raw
password. -/
lemma foldl_assignField_hash_coherent (salt : String)
    (body : List (String × String)) :
    ∀ doc : Doc, body.all (fun kv => kv.1 ≠ "passwordHash") = true →
      doc.passwordHash
        = doc._password.map (fun p => bcryptHashSync p salt) →
      (body.foldl (assignField salt) doc).passwordHash
        = (body.foldl (assignField salt) doc)._password.map
            (fun p => bcryptHashSync p salt) := by
  induction body with
  | nil => intro doc _ hd; exact hd
  | cons kv rest ih =>
      intro doc hb hd
      rw [List.all_cons, Bool.and_eq_true] at hb
      obtain ⟨hk, hrest⟩ := hb
      rw [List.foldl_cons]
      apply ih _ hrest
      unfold assignField
      split
      · exact hd
      · exact hd
      · next heq => simp [heq] at hk
      · rfl
      · exact hd
      · exact hd

/-! Claim theorems. -/

/-- C1: for every login request, the two failure cases — no user with the
given email, and a user whose stored digest the supplied password does
not match — produce the identical single response, 401 with body
`{message: "Invalid credentials"}`, so a caller cannot tell which case
occurred. -/
theorem login_failures_indistinguishable (user : User) (password : String)
    (n1 n2 : Nat) (h : validatePassword password user = false) :
    login LookupResult.notFound password n1
        = [⟨401, Body.msg "Invalid credentials"⟩] ∧
      login (LookupResult.found user) password n2
        = [⟨401, Body.msg "Invalid credentials"⟩] := by
  refine ⟨rfl, ?_⟩
  simp [login, h]

/-- Witness for C1: a concrete user whose digest was derived from
"password"; logging in with "wrong" and logging in against an absent
user give the same response. -/
theorem login_failures_indistinguishable_witness :
    login LookupResult.notFound "wrong" 0
        = [⟨401, Body.msg "Invalid credentials"⟩] ∧
      login (LookupResult.found ⟨1, "chansec", "chanse@chanse.com",
          bcryptHashSync "password" "s", 0⟩) "wrong" 0
        = [⟨401, Body.msg "Invalid credentials"⟩] :=
  login_failures_indistinguishable
    ⟨1, "chansec", "chanse@chanse.com", bcryptHashSync "password" "s", 0⟩
    "wrong" 0 0 (by decide)

/-- C2: on a protected route, a request with no Authorization header is
answered 401 `{message: "Unauthorized"}` and no resource handler runs
(the result is the same for every handler); a request whose extracted
token fails verification is likewise answered 401 without running the
handler; and only on successful verification does the handler run, on
the decoded payload the gate attached as `req.user`. -/
theorem secureRoute_gate :
    (∀ (verify : String → Option Payload) (handler : Payload → Response),
        handleProtected verify none handler = ⟨401, Body.msg "Unauthorized"⟩) ∧
      (∀ (verify : String → Option Payload) (handler : Payload → Response)
          (h : String), verify (extractToken h) = none →
          handleProtected verify (some h) handler
            = ⟨401, Body.msg "Unauthorized"⟩) ∧
      (∀ (verify : String → Option Payload) (handler : Payload → Response)
          (h : String) (p : Payload), h ≠ "" →
          verify (extractToken h) = some p →
          handleProtected verify (some h) handler = handler p) := by
  refine ⟨fun verify handler => rfl, ?_, ?_⟩
  · intro verify handler h hv
    exact handleProtected_of_verify_none verify handler h hv
  · intro verify handler h p hh hv
    exact handleProtected_of_verify_some verify handler h p hh hv

/-- Witness for C2: a concrete failing verification is rejected and a
concrete succeeding one reaches the handler. -/
theorem secureRoute_gate_witness :
    handleProtected (fun _ => none) (some "Bearer x")
        (fun _ => ⟨200, Body.empty⟩) = ⟨401, Body.msg "Unauthorized"⟩ ∧
      handleProtected
        (fun s => if s = "tok" then some ⟨1, "chansec"⟩ else none)
        (some "Bearer tok") (fun _ => ⟨200, Body.empty⟩)
        = ⟨200, Body.empty⟩ :=
  ⟨secureRoute_gate.2.1 (fun _ => none) (fun _ => ⟨200, Body.empty⟩)
      "Bearer x" (by decide),
    secureRoute_gate.2.2
      (fun s => if s = "tok" then some ⟨1, "chansec"⟩ else none)
      (fun _ => ⟨200, Body.empty⟩) "Bearer tok" ⟨1, "chansec"⟩
      (by decide) (by decide)⟩

/-- C9: the gate removes the first occurrence of the literal substring
"Bearer " from the header value; a header that starts with "Bearer " is
stripped to the rest, a header in which "Bearer " occurs nowhere (such
as a bare token, which contains no space) is passed through unchanged —
so a bare valid token is also accepted — and a header in which
"Bearer " appears only later has that later occurrence removed. -/
theorem extractToken_first_occurrence :
    (∀ s : String, extractToken ("Bearer " ++ s) = s) ∧
      (∀ h : String, hasOcc "Bearer ".toList h.toList = false →
          extractToken h = h) ∧
      (∀ (verify : String → Option Payload) (handler : Payload → Response)
          (h : String) (p : Payload), h ≠ "" →
          hasOcc "Bearer ".toList h.toList = false → verify h = some p →
          handleProtected verify (some h) handler = handler p) ∧
      extractToken "xBearer yz" = "xyz" := by
  have hext : ∀ h : String, hasOcc "Bearer ".toList h.toList = false →
      extractToken h = h := by
    intro h hno
    show String.mk (removeFirstOcc "Bearer ".toList h.toList) = h
    rw [removeFirstOcc_of_not_hasOcc "Bearer ".toList h.toList hno]
    rfl
  refine ⟨?_, hext, ?_, by decide⟩
  · intro s
    show String.mk (removeFirstOcc "Bearer ".toList ("Bearer " ++ s).toList) = s
    have : ("Bearer " ++ s).toList = "Bearer ".toList ++ s.toList := by
      simp [String.toList, String.data_append]
    rw [this, removeFirstOcc_append]
    rfl
  · intro verify handler h p hh hno hv
    exact handleProtected_of_verify_some verify handler h p hh
      (by rw [hext h hno]; exact hv)

/-- Witness for C9: a bare token (no "Bearer " anywhere) is passed
through unchanged and accepted by the gate. -/
theorem extractToken_first_occurrence_witness :
    extractToken "abc.def" = "abc.def" ∧
      handleProtected
        (fun s => if s = "abc.def" then some ⟨1, "chansec"⟩ else none)
        (some "abc.def") (fun _ => ⟨200, Body.empty⟩)
        = ⟨200, Body.empty⟩ :=
  ⟨extractToken_first_occurrence.2.1 "abc.def" (by decide),
    extractToken_first_occurrence.2.2.1
      (fun s => if s = "abc.def" then some ⟨1, "chansec"⟩ else none)
      (fun _ => ⟨200, Body.empty⟩) "abc.def" ⟨1, "chansec"⟩
      (by decide) (by decide) (by decide)⟩

/-- C10: whenever the store reports no error, the delete handler answers
204 with an empty body — whether or not any user has the identifier —
so deleting a nonexistent user is indistinguishable from deleting an
existing one, and delete never reports not-found. -/
theorem delete_no_error_always_204 :
    (∀ (store : List User) (id : Nat),
        (usersDelete none store id).1 = ⟨204, Body.empty⟩) ∧
      (usersDelete none [] 5).1
        = (usersDelete none [⟨5, "chansec", "chanse@chanse.com", "h", 0⟩] 5).1 := by
  exact ⟨fun store id => rfl, rfl⟩

/-- C7: the serialized form of any user omits the password digest and
the version key, and every response of the serializing handlers — index
(list), create, show and update — carries only such serializations. -/
theorem serialization_hides_digest :
    (∀ u : User, keysOk (userToJSON u) = true) ∧
      (∀ r : Except String (List User), bodyOk (usersIndex r).body = true) ∧
      (∀ (store : List User) (body : List (String × String)) (salt : String)
          (freshId : Nat),
          bodyOk (usersCreate store body salt freshId).1.body = true) ∧
      (∀ r : Except String (Option User), bodyOk (usersShow r).body = true) ∧
      (∀ (storeErr : Option String) (store : List User) (id : Nat)
          (body : List (String × String)),
          bodyOk (usersUpdate storeErr store id body).1.body = true) := by
  have hkeys : ∀ u : User, keysOk (userToJSON u) = true := by
    intro u
    rw [userToJSON_eq]
    simp [keysOk]
  refine ⟨hkeys, ?_, ?_, ?_, ?_⟩
  · intro r
    cases r with
    | error e => rfl
    | ok users =>
        simp only [usersIndex, bodyOk, List.all_eq_true]
        intro j hj
        rcases List.mem_map.mp hj with ⟨u, _, hju⟩
        rw [← hju]
        exact hkeys u
  · intro store body salt freshId
    unfold usersCreate
    cases hc : createUser store body salt freshId with
    | error e => rfl
    | ok user => simp [bodyOk, hkeys user]
  · intro r
    rcases r with e | _ | u
    · rfl
    · rfl
    · simp [usersShow, bodyOk, hkeys]
  · intro storeErr store id body
    cases storeErr with
    | some e => rfl
    | none =>
        unfold usersUpdate
        cases hf : findByIdAndUpdate store id body with
        | mk ou st =>
            cases ou with
            | none => rfl
            | some user => simp [bodyOk, hkeys user]

/-- C5: every token issued by register or by login at time T expires
exactly 86400 seconds later: it verifies at T+1 and fails verification
at T+86401. -/
theorem token_lifetime :
    (∀ (store : List User) (body : List (String × String)) (salt : String)
        (freshId T : Nat) (st : List User) (m : String) (tok : Token),
        register store body salt freshId T = (⟨200, Body.msgToken m tok⟩, st) →
        tok.exp = T + 86400 ∧
          jwtVerify tok secret (T + 1) = some tok.payload ∧
          jwtVerify tok secret (T + 86401) = none) ∧
      (∀ (lookup : LookupResult) (password : String) (T : Nat) (m : String)
          (tok : Token),
          (⟨200, Body.msgToken m tok⟩ : Response) ∈ login lookup password T →
          tok.exp = T + 86400 ∧
            jwtVerify tok secret (T + 1) = some tok.payload ∧
            jwtVerify tok secret (T + 86401) = none) := by
  have hfresh : ∀ (p : Payload) (T : Nat),
      (jwtSign p secret (60 * 60 * 24) T).exp = T + 86400 ∧
        jwtVerify (jwtSign p secret (60 * 60 * 24) T) secret (T + 1)
          = some (jwtSign p secret (60 * 60 * 24) T).payload ∧
        jwtVerify (jwtSign p secret (60 * 60 * 24) T) secret (T + 86401)
          = none := by
    intro p T
    refine ⟨rfl, ?_, ?_⟩
    · exact jwtVerify_jwtSign_of_lt p (60 * 60 * 24) T (T + 1) (by omega)
    · exact jwtVerify_jwtSign_of_ge p (60 * 60 * 24) T (T + 86401) (by omega)
  constructor
  · intro store body salt freshId T st m tok hreg
    unfold register at hreg
    cases hc : createUser store body salt freshId with
    | error e =>
        rw [hc] at hreg
        simp at hreg
    | ok user =>
        rw [hc] at hreg
        simp only [Prod.mk.injEq, Response.mk.injEq, Body.msgToken.injEq] at hreg
        rcases hreg with ⟨⟨_, _, htok⟩, _⟩
        rw [← htok]
        exact hfresh { _id := user._id, username := user.username } T
  · intro lookup password T m tok hmem
    cases lookup with
    | err e => simp [login] at hmem
    | notFound => simp [login] at hmem
    | found user =>
        simp only [login] at hmem
        by_cases hv : validatePassword password user = true
        · rw [if_pos hv] at hmem
          simp only [List.mem_singleton, Response.mk.injEq,
            Body.msgToken.injEq] at hmem
          rcases hmem with ⟨_, _, htok⟩
          rw [htok]
          exact hfresh { _id := user._id, username := user.username } T
        · rw [if_neg hv] at hmem
          simp at hmem

/-- Witness for C5: a concrete registration and a concrete login, both
at time 0, whose tokens verify at time 1 and fail at time 86401. -/
theorem token_lifetime_witness :
    (({ payload := ⟨1, "chansec"⟩, exp := 86400, sig := secret } : Token).exp
        = 0 + 86400 ∧
      jwtVerify { payload := ⟨1, "chansec"⟩, exp := 86400, sig := secret }
          secret (0 + 1) = some ⟨1, "chansec"⟩ ∧
      jwtVerify { payload := ⟨1, "chansec"⟩, exp := 86400, sig := secret }
          secret (0 + 86401) = none) ∧
      (({ payload := ⟨2, "other"⟩, exp := 86400, sig := secret } : Token).exp
          = 0 + 86400 ∧
        jwtVerify { payload := ⟨2, "other"⟩, exp := 86400, sig := secret }
            secret (0 + 1) = some ⟨2, "other"⟩ ∧
        jwtVerify { payload := ⟨2, "other"⟩, exp := 86400, sig := secret }
            secret (0 + 86401) = none) :=
  ⟨token_lifetime.1 [] [("username", "chansec"),
      ("email", "chanse@chanse.com"), ("password", "password"),
      ("passwordConfirmation", "password")] "s" 1 0
      [⟨1, "chansec", "chanse@chanse.com", bcryptHashSync "password" "s", 0⟩]
      "Success" { payload := ⟨1, "chansec"⟩, exp := 86400, sig := secret }
      (by decide),
    token_lifetime.2
      (LookupResult.found ⟨2, "other", "o@o.com", bcryptHashSync "pw" "s", 0⟩)
      "pw" 0 "Success" { payload := ⟨2, "other"⟩, exp := 86400, sig := secret }
      (by decide)⟩

/-- C4: whenever the document built from the request body has an absent
(or empty, by JS truthiness) raw password, or a raw password different
from the confirmation value, register fails with status 400 and the
store is unchanged — no Identity is persisted. -/
theorem register_bad_password_rejected (store : List User)
    (body : List (String × String)) (salt : String) (freshId now : Nat)
    (h : (body.foldl (assignField salt) {})._password = none
       ∨ (body.foldl (assignField salt) {})._password = some ""
       ∨ (body.foldl (assignField salt) {})._password
           ≠ (body.foldl (assignField salt) {})._passwordConfirmation) :
    ∃ issues, issues ≠ [] ∧
      register store body salt freshId now
        = (⟨400, Body.valErr issues⟩, store) := by
  have hne : validateNew (body.foldl (assignField salt) {}) ≠ [] :=
    validateNew_ne_nil_of_bad_password
      (body.foldl (assignField salt) {}).username
      (body.foldl (assignField salt) {}).email
      (body.foldl (assignField salt) {}).passwordHash
      (body.foldl (assignField salt) {})._password
      (body.foldl (assignField salt) {})._passwordConfirmation h
  refine ⟨validateNew (body.foldl (assignField salt) {}), hne, ?_⟩
  unfold register
  rw [createUser_eq_error store body salt freshId hne]

/-- Witness for C4: a concrete body whose password and confirmation
differ is rejected with 400 and leaves the empty store empty. -/
theorem register_bad_password_rejected_witness :
    (([("username", "chansec"), ("email", "chanse@chanse.com"),
        ("password", "a"), ("passwordConfirmation", "b")] :
          List (String × String)).foldl (assignField "s") {})._password
      ≠ (([("username", "chansec"), ("email", "chanse@chanse.com"),
          ("password", "a"), ("passwordConfirmation", "b")] :
            List (String × String)).foldl (assignField "s")
          {})._passwordConfirmation ∧
      (∃ issues, issues ≠ [] ∧
        register [] [("username", "chansec"), ("email", "chanse@chanse.com"),
            ("password", "a"), ("passwordConfirmation", "b")] "s" 1 0
          = (⟨400, Body.valErr issues⟩, [])) :=
  ⟨by decide,
    register_bad_password_rejected [] [("username", "chansec"),
      ("email", "chanse@chanse.com"), ("password", "a"),
      ("passwordConfirmation", "b")] "s" 1 0 (Or.inr (Or.inr (by decide)))⟩

/-- C3: for every candidate that supplies a handle, a contact address
and a raw password (all nonempty, as the mongoose required check on
String paths demands) with the confirmation equal to the password, and
whose handle and address are not already persisted, register answers
200 Success with a token, persists exactly the new Identity, and
verifying that token with the same secret before its expiry yields a
payload with the new Identity's id and handle. -/
theorem register_roundtrip (store : List User) (un em pw salt : String)
    (freshId now : Nat) (hun0 : un ≠ "") (hem0 : em ≠ "") (hpw : pw ≠ "")
    (hun : ∀ u ∈ store, u.username ≠ un) (hem : ∀ u ∈ store, u.email ≠ em) :
    register store [("username", un), ("email", em), ("password", pw),
        ("passwordConfirmation", pw)] salt freshId now
      = (⟨200, Body.msgToken "Success"
            { payload := ⟨freshId, un⟩, exp := now + 86400, sig := secret }⟩,
         store ++ [⟨freshId, un, em, bcryptHashSync pw salt, 0⟩]) ∧
      ∀ t, t < now + 86400 →
        jwtVerify { payload := ⟨freshId, un⟩, exp := now + 86400, sig := secret }
          secret t = some ⟨freshId, un⟩ := by
  have hdup : store.any (fun u => u.username == un || u.email == em)
      = false := by
    rw [List.any_eq_false]
    intro u hu
    simp only [Bool.or_eq_true, beq_iff_eq, not_or]
    exact ⟨hun u hu, hem u hu⟩
  constructor
  · unfold register
    rw [createUser_candidate store un em pw salt freshId hun0 hem0 hpw hdup]
    simp [jwtSign]
  · intro t ht
    exact jwtVerify_jwtSign_of_lt ⟨freshId, un⟩ 86400 now t ht

/-- Witness for C3: the walkthrough's own example candidate registered
against an empty store; its token verifies at time 1 with the created
id and handle. -/
theorem register_roundtrip_witness :
    register [] [("username", "chansec"), ("email", "chanse@chanse.com"),
        ("password", "password"), ("passwordConfirmation", "password")]
        "s" 1 0
      = (⟨200, Body.msgToken "Success"
            { payload := ⟨1, "chansec"⟩, exp := 0 + 86400, sig := secret }⟩,
         [] ++ [⟨1, "chansec", "chanse@chanse.com",
            bcryptHashSync "password" "s", 0⟩]) ∧
      jwtVerify { payload := ⟨1, "chansec"⟩, exp := 0 + 86400, sig := secret }
        secret 1 = some ⟨1, "chansec"⟩ :=
  ⟨(register_roundtrip [] "chansec" "chanse@chanse.com" "password" "s" 1 0
      (by decide) (by decide) (by decide) (by simp) (by simp)).1,
    (register_roundtrip [] "chansec" "chanse@chanse.com" "password" "s" 1 0
      (by decide) (by decide) (by decide) (by simp) (by simp)).2 1 (by decide)⟩

/-- C8 counterexample: the claim fails as stated. An update body
carrying only a `passwordHash` key — no raw password and no confirmation
— is written directly into the persisted digest by `usersUpdate`
(`findByIdAndUpdate` applies schema paths and never runs the virtual
setters), replacing a digest that had been derived by hashing; and even
at creation, a body that supplies `passwordHash` after a valid
password/confirmation pair persists the externally supplied value. -/
theorem digest_direct_set_counterexample :
    (usersUpdate none
        [⟨1, "chansec", "chanse@chanse.com", bcryptHashSync "password" "s", 0⟩]
        1 [("passwordHash", "evil")]).2
      = [⟨1, "chansec", "chanse@chanse.com", "evil", 0⟩] ∧
      bcryptHashSync "password" "s" ≠ "evil" ∧
      ([("passwordHash", "evil")] : List (String × String)).all
        (fun kv => kv.1 ≠ "password" && kv.1 ≠ "passwordConfirmation")
        = true ∧
      createUser [] [("password", "pw"), ("passwordConfirmation", "pw"),
          ("username", "u"), ("email", "e"), ("passwordHash", "evil")]
          "salt" 1
        = Except.ok ⟨1, "u", "e", "evil", 0⟩ := by
  refine ⟨by decide, by decide, by decide, rfl⟩

/-- C8 as amended: for registration and the create resource operation,
whenever the externally supplied record contains no `passwordHash` key,
the persisted Identity's digest is derived exclusively by hashing the
transient raw-password value, which is necessarily present, nonempty
and equal to the supplied confirmation value. (The update operation, as
the counterexample shows, does not enforce this.) -/
theorem digest_derived_from_password (store : List User)
    (body : List (String × String)) (salt : String) (freshId : Nat)
    (u : User)
    (hnoph : body.all (fun kv => kv.1 ≠ "passwordHash") = true)
    (hok : createUser store body salt freshId = Except.ok u) :
    ∃ pw : String, pw ≠ "" ∧
      (body.foldl (assignField salt) {})._password = some pw ∧
      (body.foldl (assignField salt) {})._passwordConfirmation = some pw ∧
      u.passwordHash = bcryptHashSync pw salt := by
  obtain ⟨hval, hupw⟩ :=
    createUser_ok_passwordHash store body salt freshId u hok
  obtain ⟨pw, hpe, hpw, hpc⟩ := validateNew_nil_password
    (body.foldl (assignField salt) {}).username
    (body.foldl (assignField salt) {}).email
    (body.foldl (assignField salt) {}).passwordHash
    (body.foldl (assignField salt) {})._password
    (body.foldl (assignField salt) {})._passwordConfirmation hval
  have hinv := foldl_assignField_hash_coherent salt body {} hnoph rfl
  refine ⟨pw, hpe, hpw, hpc, ?_⟩
  rw [hupw, hinv, hpw]
  rfl

/-- Witness for C8 (amended): the walkthrough's candidate body, which
has no `passwordHash` key, yields a digest hashed from its raw
password. -/
theorem digest_derived_from_password_witness :
    ∃ pw : String, pw ≠ "" ∧
      (([("username", "chansec"), ("email", "chanse@chanse.com"),
          ("password", "password"), ("passwordConfirmation", "password")] :
            List (String × String)).foldl (assignField "s") {})._password
        = some pw ∧
      (([("username", "chansec"), ("email", "chanse@chanse.com"),
          ("password", "password"), ("passwordConfirmation", "password")] :
            List (String × String)).foldl (assignField "s")
          {})._passwordConfirmation = some pw ∧
      (⟨1, "chansec", "chanse@chanse.com", bcryptHashSync "password" "s",
          0⟩ : User).passwordHash = bcryptHashSync pw "s" :=
  digest_derived_from_password [] [("username", "chansec"),
    ("email", "chanse@chanse.com"), ("password", "password"),
    ("passwordConfirmation", "password")] "s" 1
    ⟨1, "chansec", "chanse@chanse.com", bcryptHashSync "password" "s", 0⟩
    (by decide) rfl

end AuthApp
